import Mathlib

/-!
Verification development for the chatbot backend (src/main.py).

The Python source is shallowly embedded: the SQLite tables become lists of
rows, `AUTOINCREMENT` becomes an explicit `nextMessageId` counter, SQL
`ORDER BY timestamp` becomes a stable insertion sort by timestamp over the
rows in insertion (rowid) order, `datetime.now()` and `uuid.uuid4()` become
explicit parameters, and the remote completion provider is an abstract
function parameter that may fail. Exceptions (sqlite IntegrityError, the
provider failure caught by the handler) become `Except` errors; a sqlite
`with connect(...)` block that raises rolls its transaction back, so on the
error paths the returned state is the state from before the block.
-/

/-- A role-tagged prompt entry: one element of the `messages` list sent to the
completion provider (`{"role": ..., "content": ...}` in the source). -/
structure ChatEntry where
  role : String
  content : String
deriving DecidableEq, Repr

/-- Python slice `l[s:]` for an arbitrary integer start `s`: a negative start
counts from the end (clamped to 0), a non-negative start drops that many
elements from the front. -/
def pySliceFrom (s : Int) (l : List α) : List α :=
  if s < 0 then l.drop ((l.length : Int) + s).toNat else l.drop s.toNat

/-- `get_custom_prompt` (src/main.py lines 105-122): dictionary lookup of the
persona instruction with fallback to the `Default` entry. -/
def defaultPersonaPrompt : String :=
  "You are a friendly and helpful AI assistant, providing clear, concise, and accurate responses. Focus on being approachable and ensuring the user feels understood and supported."

def expertPersonaPrompt : String :=
  "You are a highly knowledgeable and authoritative expert across various fields. Offer in-depth, precise, and technical explanations, citing examples or relevant research when necessary. Avoid jargon when possible, but feel free to introduce advanced concepts where appropriate."

def creativePersonaPrompt : String :=
  "You are an imaginative and inventive AI with a flair for creative problem-solving and thinking outside the box. Use metaphors, vivid descriptions, and unconventional ideas to inspire and captivate the user. Feel free to suggest unique approaches or surprising solutions to problems."

def get_custom_prompt (persona : String) : String :=
  if persona = "Default" then defaultPersonaPrompt
  else if persona = "Expert" then expertPersonaPrompt
  else if persona = "Creative" then creativePersonaPrompt
  else defaultPersonaPrompt

/-- The for-loop of src/main.py lines 161-163: for each retained `(human, ai)`
pair append one user entry and one assistant entry. -/
def pairEntries : List (String × String) → List ChatEntry
  | [] => []
  | (h, a) :: rest =>
      ChatEntry.mk "user" h :: ChatEntry.mk "assistant" a :: pairEntries rest

/-- Prompt assembly of src/main.py lines 151-166: optional system entry (the
source guards on the truthiness of the system prompt string), then the pairs
of `history[-memory_length:]`, then the current user message. -/
def buildPrompt (persona : String) (history : List (String × String))
    (memory_length : Int) (message : String) : List ChatEntry :=
  (if get_custom_prompt persona = "" then []
   else [ChatEntry.mk "system" (get_custom_prompt persona)])
    ++ pairEntries (pySliceFrom (-memory_length) history)
    ++ [ChatEntry.mk "user" message]

/-- A row of the `sessions` table (session_id TEXT PRIMARY KEY, user_email,
title, start_time). -/
structure SessionRow where
  session_id : String
  user_email : String
  title : String
  start_time : Nat
deriving DecidableEq, Repr

/-- A row of the `messages` table (id INTEGER PRIMARY KEY AUTOINCREMENT,
session_id, human, ai, timestamp). -/
structure MessageRow where
  id : Nat
  session_id : String
  human : String
  ai : String
  timestamp : Nat
deriving DecidableEq, Repr

/-- The sqlite database: the three tables, as lists of rows in insertion
order, plus the AUTOINCREMENT counter for `messages.id`. -/
structure DB where
  users : List String
  sessions : List SessionRow
  messages : List MessageRow
  nextMessageId : Nat
deriving DecidableEq, Repr

/-- Errors raised by the embedded sqlite operations: `integrityError` is the
UNIQUE/PRIMARY KEY violation raised by an INSERT, `noRow` is the TypeError
from subscripting a `fetchone()` that returned no row. -/
inductive DBError
  | integrityError
  | noRow
deriving DecidableEq, Repr

instance {ε α : Type} [DecidableEq ε] [DecidableEq α] : DecidableEq (Except ε α) :=
  fun a b =>
    match a, b with
    | .error x, .error y =>
        if h : x = y then .isTrue (congrArg Except.error h)
        else .isFalse fun hc => h (Except.error.inj hc)
    | .ok x, .ok y =>
        if h : x = y then .isTrue (congrArg Except.ok h)
        else .isFalse fun hc => h (Except.ok.inj hc)
    | .error _, .ok _ => .isFalse fun hc => Except.noConfusion hc
    | .ok _, .error _ => .isFalse fun hc => Except.noConfusion hc

/-- `INSERT OR IGNORE INTO users (email) VALUES (?)`. -/
def insertOrIgnoreUser (email : String) (db : DB) : DB :=
  if email ∈ db.users then db else { db with users := db.users ++ [email] }

/-- `SELECT session_id FROM sessions WHERE session_id = ? AND user_email = ?`
followed by `fetchone()`. -/
def findSession (sid uid : String) (db : DB) : Option SessionRow :=
  db.sessions.find? fun s => s.session_id == sid && s.user_email == uid

/-- `INSERT INTO sessions ... VALUES (?, ?, ?, ?)`: fails with IntegrityError
when a row with the same primary-key `session_id` already exists. -/
def insertSession (row : SessionRow) (db : DB) : Except DBError DB :=
  if db.sessions.any (fun s => s.session_id == row.session_id) then
    .error .integrityError
  else
    .ok { db with sessions := db.sessions ++ [row] }

/-- The auto-generated session title `f"Chat {datetime.now().strftime(...)}"`,
with the timestamp abstracted to a natural number. -/
def mkTitle (now : Nat) : String := "Chat " ++ toString now

/-- The ordering used by `ORDER BY timestamp`. -/
def byTimestamp (a b : MessageRow) : Prop := a.timestamp ≤ b.timestamp

instance : DecidableRel byTimestamp := fun a b => Nat.decLe a.timestamp b.timestamp

/-- `SELECT ... FROM messages WHERE session_id = ? ORDER BY timestamp`:
filter the table (which is kept in rowid insertion order) and stable-sort by
timestamp. -/
def listMessages (sid : String) (db : DB) : List MessageRow :=
  List.insertionSort byTimestamp (db.messages.filter fun m => m.session_id == sid)

/-- `SELECT COUNT(*) FROM messages WHERE session_id = ?`. -/
def countMessages (sid : String) (db : DB) : Nat :=
  (db.messages.filter fun m => m.session_id == sid).length

/-- `SELECT start_time FROM sessions WHERE session_id = ?` with `fetchone()`. -/
def selectStartTime (sid : String) (db : DB) : Option Nat :=
  (db.sessions.find? fun s => s.session_id == sid).map (·.start_time)

/-- `INSERT INTO messages (session_id, human, ai, timestamp) VALUES (?,?,?,?)`
with the AUTOINCREMENT id. -/
def appendMessage (sid human ai : String) (ts : Nat) (db : DB) : DB :=
  { db with
      messages := db.messages ++ [MessageRow.mk db.nextMessageId sid human ai ts],
      nextMessageId := db.nextMessageId + 1 }

/-- The duplicated ensure-user-and-session block (src/main.py lines 142-149
and 202-208): idempotent user insert, then look up the (session_id,
user_email) pair and insert a fresh session row when absent.  The insert can
raise IntegrityError when the id is taken by another user; the enclosing
`with` block then rolls back, so the caller keeps the pre-block state. -/
def ensureUserAndSession (sid uid : String) (now : Nat) (db : DB) :
    Except DBError DB :=
  match findSession sid uid (insertOrIgnoreUser uid db) with
  | some _ => .ok (insertOrIgnoreUser uid db)
  | none =>
      insertSession (SessionRow.mk sid uid (mkTitle now) now)
        (insertOrIgnoreUser uid db)

/-- `request.session_id or str(uuid.uuid4())`: Python `or` also replaces the
empty string, not only `None`. -/
def resolveSessionId (sessionIdOpt : Option String) (fresh : String) : String :=
  match sessionIdOpt with
  | none => fresh
  | some s => if s = "" then fresh else s

/-- Response model of `POST /api/chat/session`. -/
structure SessionResponse where
  session_id : String
  chat_history : List (String × String × Nat)
  message_count : Nat
  start_time : Nat
deriving DecidableEq, Repr

/-- `get_or_create_session` (src/main.py lines 197-222).  On an error the
`with` block rolls back, so the caller's state is unchanged. -/
def get_or_create_session (sessionIdOpt : Option String) (user_email : String)
    (fresh : String) (now : Nat) (db : DB) :
    Except DBError (SessionResponse × DB) :=
  match ensureUserAndSession (resolveSessionId sessionIdOpt fresh) user_email now db with
  | .error e => .error e
  | .ok db1 =>
    match selectStartTime (resolveSessionId sessionIdOpt fresh) db1 with
    | none => .error .noRow
    | some st =>
        .ok (SessionResponse.mk (resolveSessionId sessionIdOpt fresh)
              ((listMessages (resolveSessionId sessionIdOpt fresh) db1).map
                fun m => (m.human, m.ai, m.timestamp))
              (countMessages (resolveSessionId sessionIdOpt fresh) db1) st, db1)

/-- Turn-level errors surfaced by `send_message` as HTTP 500. -/
inductive TurnError
  | storage (e : DBError)
  | provider (msg : String)
deriving DecidableEq, Repr

/-- Response model of `POST /api/chat/send`. -/
structure SendMessageResponse where
  response : String
  session_id : String
  message_count : Nat
deriving DecidableEq, Repr

/-- `send_message` (src/main.py lines 135-194).  The completion call is the
abstract `provider` taking the model name and the assembled prompt; `tSess`
and `tMsg` are the two `datetime.now()` readings.  The result pairs the
handler outcome with the database state after the turn: the session-ensuring
block commits before the provider call, the message append commits after it,
and a failing block is rolled back. -/
def send_message (message sid model persona : String) (memory_length : Int)
    (user_email : String) (tSess tMsg : Nat)
    (provider : String → List ChatEntry → Except String String) (db : DB) :
    Except TurnError SendMessageResponse × DB :=
  match ensureUserAndSession sid user_email tSess db with
  | .error e => (.error (.storage e), db)
  | .ok db1 =>
    match provider model
        (buildPrompt persona ((listMessages sid db1).map fun m => (m.human, m.ai))
          memory_length message) with
    | .error e => (.error (.provider e), db1)
    | .ok reply =>
        (.ok (SendMessageResponse.mk reply sid
            (countMessages sid (appendMessage sid message reply tMsg db1))),
         appendMessage sid message reply tMsg db1)

/-- `clear_session` (src/main.py lines 224-231): delete the session's message
rows and its session row. -/
def clear_session (sid : String) (db : DB) : DB :=
  { db with
      messages := db.messages.filter fun m => !(m.session_id == sid),
      sessions := db.sessions.filter fun s => !(s.session_id == sid) }

/-- `clear_memory_only` (src/main.py lines 233-235): the DELETE
/api/chat/memory/\x7bsession_id\x7d handler body — it only returns a message. -/
def clear_memory_only (session_id : String) (db : DB) : String × DB :=
  ("Memory cleared successfully", db)

/-! ## Definitions supporting the theorems and their witnesses -/

/-- Ascending (timestamp, surrogate id) lexicographic order on message rows. -/
def msgLex (a b : MessageRow) : Prop :=
  a.timestamp < b.timestamp ∨ (a.timestamp = b.timestamp ∧ a.id < b.id)

instance : DecidableRel msgLex := fun a b =>
  inferInstanceAs (Decidable (a.timestamp < b.timestamp ∨
    (a.timestamp = b.timestamp ∧ a.id < b.id)))

/-- Well-formedness of the messages table maintained by AUTOINCREMENT: ids
strictly increase in insertion order and stay below the counter. -/
def DB.WFMessages (db : DB) : Prop :=
  db.messages.Pairwise (fun a b => a.id < b.id)
  ∧ ∀ m ∈ db.messages, m.id < db.nextMessageId

/-- Concrete database for the C6 witness: two messages of session s1 with
equal timestamps plus one message of another session. -/
def dbC6 : DB :=
  DB.mk ["u"] [SessionRow.mk "s1" "u" "t" 0]
    [MessageRow.mk 0 "s1" "h1" "a1" 5, MessageRow.mk 1 "s1" "h2" "a2" 5,
     MessageRow.mk 2 "other" "x" "y" 1] 3

/-- Concrete state for the C4 witness: one session owned by alice. -/
def dbC4 : DB := DB.mk ["alice"] [SessionRow.mk "s1" "alice" "t" 0] [] 0

/-- Empty initial database for concrete witnesses. -/
def dbEmpty : DB := DB.mk [] [] [] 0

/-- Database after the first `get_or_create_session` of the C5 witness. -/
def db1C5 : DB := DB.mk ["u"] [SessionRow.mk "s1" "u" (mkTitle 1) 1] [] 0

/-- Response of the first `get_or_create_session` of the C5 witness. -/
def r1C5 : SessionResponse := SessionResponse.mk "s1" [] 0 1

/-- A provider that always fails with "boom". -/
def failProvider : String → List ChatEntry → Except String String :=
  fun _ _ => .error "boom"

/-- Response of the C9 witness call. -/
def respC9 : SessionResponse := SessionResponse.mk "g" [] 0 3

/-- Database after the C9 witness call. -/
def dbC9 : DB := DB.mk ["v"] [SessionRow.mk "g" "v" (mkTitle 3) 3] [] 0

/-- Concrete state for the C8 witness: two sessions, one message each. -/
def dbC8 : DB :=
  DB.mk ["u"] [SessionRow.mk "s1" "u" "t" 0, SessionRow.mk "s2" "u" "t2" 1]
    [MessageRow.mk 0 "s1" "h" "a" 5, MessageRow.mk 1 "s2" "h2" "a2" 6] 2

/-! ## Helper lemmas -/

/-- Every persona resolves to a nonempty instruction, so the truthiness guard
on the system prompt always passes. -/
theorem get_custom_prompt_ne_empty (p : String) : get_custom_prompt p ≠ "" := by
  unfold get_custom_prompt
  split_ifs <;> decide

/-- For a strictly positive window `w`, the Python slice `l[-w:]` is the
suffix of the last `min w (length l)` elements. -/
theorem pySliceFrom_neg (w : Int) (hw : 0 < w) (l : List α) :
    pySliceFrom (-w) l = l.drop (l.length - w.toNat) := by
  unfold pySliceFrom
  rw [if_pos (by omega : -w < 0)]
  congr 1
  omega

/-! ## C1 -/

/-- C1: for a positive window size, the assembled prompt is exactly one
system entry with the resolved persona instruction, then a user/assistant
pair for each of the last `min windowSize (length history)` history entries
in original order (a suffix of `history`), then one user entry with the new
message; when `windowSize ≥ length history` the whole history is retained. -/
theorem buildPrompt_positive_window (persona message : String)
    (history : List (String × String)) (w : Int) (hw : 0 < w) :
    buildPrompt persona history w message =
      ChatEntry.mk "system" (get_custom_prompt persona)
        :: (pairEntries (history.drop (history.length - w.toNat))
            ++ [ChatEntry.mk "user" message])
    ∧ history.drop (history.length - w.toNat) <:+ history
    ∧ (history.drop (history.length - w.toNat)).length = min w.toNat history.length
    ∧ ((history.length : Int) ≤ w → history.drop (history.length - w.toNat) = history) := by
  refine ⟨?_, List.drop_suffix _ _, ?_, ?_⟩
  · unfold buildPrompt
    rw [if_neg (get_custom_prompt_ne_empty persona), pySliceFrom_neg w hw]
    simp
  · rw [List.length_drop]
    omega
  · intro h
    have hz : history.length - w.toNat = 0 := by omega
    rw [hz, List.drop_zero]

/-- C1 witness: window size 1 over a two-entry history keeps exactly the last
exchange. -/
theorem buildPrompt_positive_window_witness :
    (0 : Int) < 1 ∧
    (buildPrompt "Default" [("q1", "a1"), ("q2", "a2")] 1 "hi" =
      ChatEntry.mk "system" (get_custom_prompt "Default")
        :: (pairEntries ([("q1", "a1"), ("q2", "a2")].drop
              ([("q1", "a1"), ("q2", "a2")].length - (1 : Int).toNat))
            ++ [ChatEntry.mk "user" "hi"])
    ∧ [("q1", "a1"), ("q2", "a2")].drop
        ([("q1", "a1"), ("q2", "a2")].length - (1 : Int).toNat)
        <:+ [("q1", "a1"), ("q2", "a2")]
    ∧ ([("q1", "a1"), ("q2", "a2")].drop
        ([("q1", "a1"), ("q2", "a2")].length - (1 : Int).toNat)).length =
        min (1 : Int).toNat [("q1", "a1"), ("q2", "a2")].length
    ∧ (([("q1", "a1"), ("q2", "a2")].length : Int) ≤ 1 →
        [("q1", "a1"), ("q2", "a2")].drop
          ([("q1", "a1"), ("q2", "a2")].length - (1 : Int).toNat) =
          [("q1", "a1"), ("q2", "a2")])) :=
  ⟨by decide,
   buildPrompt_positive_window "Default" "hi" [("q1", "a1"), ("q2", "a2")] 1 (by decide)⟩

/-! ## C2 -/

set_option maxRecDepth 8192 in
/-- C2 counterexample: with `windowSize = 0` and a one-entry history the
source slices `history[-0:] = history[0:]`, the whole history, so the prompt
is not just the system entry plus the new user entry. -/
theorem windowZero_counterexample :
    buildPrompt "Default" [("a", "b")] 0 "hi" ≠
      [ChatEntry.mk "system" (get_custom_prompt "Default"),
       ChatEntry.mk "user" "hi"] := by
  decide

/-- C2 amended: for `windowSize ≤ 0` no error is raised and the prompt is the
system entry, then a user/assistant pair for every history entry except the
first `min (-windowSize) (length history)` ones (so for `windowSize = 0` the
whole history appears), then the new user entry. -/
theorem buildPrompt_nonpositive_window (persona message : String)
    (history : List (String × String)) (w : Int) (hw : w ≤ 0) :
    buildPrompt persona history w message =
      ChatEntry.mk "system" (get_custom_prompt persona)
        :: (pairEntries (history.drop (-w).toNat)
            ++ [ChatEntry.mk "user" message]) := by
  unfold buildPrompt pySliceFrom
  rw [if_neg (get_custom_prompt_ne_empty persona), if_neg (by omega : ¬ -w < 0)]
  simp

/-- C2 amended witness: window size 0 over a one-entry history keeps the
prior turn. -/
theorem buildPrompt_nonpositive_window_witness :
    (0 : Int) ≤ 0 ∧
    buildPrompt "Default" [("a", "b")] 0 "hi" =
      ChatEntry.mk "system" (get_custom_prompt "Default")
        :: (pairEntries ([("a", "b")].drop (-(0 : Int)).toNat)
            ++ [ChatEntry.mk "user" "hi"]) :=
  ⟨by decide, buildPrompt_nonpositive_window "Default" "hi" [("a", "b")] 0 (by decide)⟩

/-! ## C3 -/

/-- C3: every persona identifier resolves to one of the three fixed
instruction strings, and any identifier outside the closed enumeration
resolves to the Default instruction; resolution is total, so it never
raises. -/
theorem persona_resolution (p : String) :
    (get_custom_prompt p = defaultPersonaPrompt ∨
     get_custom_prompt p = expertPersonaPrompt ∨
     get_custom_prompt p = creativePersonaPrompt)
    ∧ (p ≠ "Default" → p ≠ "Expert" → p ≠ "Creative" →
        get_custom_prompt p = defaultPersonaPrompt) := by
  unfold get_custom_prompt
  constructor
  · split_ifs <;> simp
  · intro h1 h2 h3
    rw [if_neg h1, if_neg h2, if_neg h3]

/-- C3 witness: the unknown identifier "Pirate" falls back to the Default
instruction. -/
theorem persona_resolution_witness :
    "Pirate" ≠ "Default" ∧ get_custom_prompt "Pirate" = defaultPersonaPrompt :=
  ⟨by decide, (persona_resolution "Pirate").2 (by decide) (by decide) (by decide)⟩

/-! ## C10 -/

/-- C10: the clear-memory endpoint returns the success message while leaving
the users, sessions and messages tables exactly unchanged. -/
theorem clear_memory_only_noop (session_id : String) (db : DB) :
    (clear_memory_only session_id db).1 = "Memory cleared successfully"
    ∧ ((clear_memory_only session_id db).2).users = db.users
    ∧ ((clear_memory_only session_id db).2).sessions = db.sessions
    ∧ ((clear_memory_only session_id db).2).messages = db.messages :=
  ⟨rfl, rfl, rfl, rfl⟩

/-! ## C6: ordering of listMessages -/

/-- Inserting a row whose id is below every id in a lex-sorted list, using the
timestamp order, keeps the list lex-sorted: the stable position chosen by
`orderedInsert` is exactly the lexicographic one. -/
theorem pairwise_lex_orderedInsert (a : MessageRow) (l : List MessageRow)
    (hl : l.Pairwise msgLex) (ha : ∀ b ∈ l, a.id < b.id) :
    (List.orderedInsert byTimestamp a l).Pairwise msgLex := by
  induction l with
  | nil => simp [List.orderedInsert]
  | cons y ys ih =>
    rw [List.pairwise_cons] at hl
    obtain ⟨hy, hys⟩ := hl
    by_cases hr : byTimestamp a y
    · rw [List.orderedInsert, if_pos hr]
      refine List.Pairwise.cons ?_ (List.Pairwise.cons hy hys)
      intro z hz
      have hid : a.id < z.id := ha z hz
      have hts : a.timestamp ≤ z.timestamp := by
        rcases List.mem_cons.mp hz with rfl | hz2
        · exact hr
        · have hyz := hy z hz2
          unfold byTimestamp at hr
          unfold msgLex at hyz
          omega
      unfold msgLex
      omega
    · rw [List.orderedInsert, if_neg hr]
      refine List.Pairwise.cons ?_
        (ih hys fun b hb => ha b (List.mem_cons_of_mem _ hb))
      intro w hw
      rcases (List.mem_orderedInsert byTimestamp).mp hw with rfl | hw2
      · unfold byTimestamp at hr
        unfold msgLex
        omega
      · exact hy w hw2

/-- Insertion sort by timestamp of a list whose surrogate ids strictly
increase yields a list sorted lexicographically by (timestamp, id): the sort
is stable, so equal timestamps stay in id order. -/
theorem pairwise_lex_insertionSort (l : List MessageRow)
    (h : l.Pairwise fun a b => a.id < b.id) :
    (List.insertionSort byTimestamp l).Pairwise msgLex := by
  induction l with
  | nil => simp
  | cons a l ih =>
    rw [List.pairwise_cons] at h
    obtain ⟨hal, hl⟩ := h
    rw [List.insertionSort]
    refine pairwise_lex_orderedInsert a _ (ih hl) fun b hb => ?_
    exact hal b ((List.perm_insertionSort byTimestamp l).mem_iff.mp hb)

/-- `appendMessage` preserves the AUTOINCREMENT invariant. -/
theorem appendMessage_wfMessages (sid human ai : String) (ts : Nat) (db : DB)
    (h : db.WFMessages) : (appendMessage sid human ai ts db).WFMessages := by
  obtain ⟨h1, h2⟩ := h
  constructor
  · rw [appendMessage, List.pairwise_append]
    refine ⟨h1, by simp, ?_⟩
    intro a ha b hb
    rw [List.mem_singleton] at hb
    subst hb
    exact h2 a ha
  · intro m hm
    rw [appendMessage] at hm
    rcases List.mem_append.mp hm with hm1 | hm2
    · exact Nat.lt_succ_of_lt (h2 m hm1)
    · rw [List.mem_singleton] at hm2
      subst hm2
      exact Nat.lt_succ_self _

/-- C6: over any messages table whose surrogate ids strictly increase in
insertion order (the AUTOINCREMENT invariant), the rows returned for a
session are sorted ascending by timestamp with the surrogate id as tie-break,
and a session with no messages yields the empty sequence. -/
theorem listMessages_sorted (db : DB) (sid : String)
    (h : db.messages.Pairwise fun a b => a.id < b.id) :
    (listMessages sid db).Pairwise msgLex
    ∧ ((∀ m ∈ db.messages, m.session_id ≠ sid) → listMessages sid db = []) := by
  constructor
  · exact pairwise_lex_insertionSort _ (h.sublist (List.filter_sublist _))
  · intro hnone
    unfold listMessages
    have hnil : db.messages.filter (fun m => m.session_id == sid) = [] := by
      rw [List.filter_eq_nil_iff]
      intro m hm
      simpa using hnone m hm
    rw [hnil]
    rfl

/-- C6 witness: the invariant holds for the concrete table and the listing is
lex-sorted. -/
theorem listMessages_sorted_witness :
    dbC6.messages.Pairwise (fun a b => a.id < b.id)
    ∧ ((listMessages "s1" dbC6).Pairwise msgLex
       ∧ ((∀ m ∈ dbC6.messages, m.session_id ≠ "s1") →
           listMessages "s1" dbC6 = [])) :=
  ⟨by decide, listMessages_sorted dbC6 "s1" (by decide)⟩

/-! ## Session registry helper lemmas -/

/-- The idempotent user insert never touches the sessions table. -/
theorem insertOrIgnoreUser_sessions (u : String) (db : DB) :
    (insertOrIgnoreUser u db).sessions = db.sessions := by
  unfold insertOrIgnoreUser
  split <;> rfl

/-- The idempotent user insert never touches the messages table. -/
theorem insertOrIgnoreUser_messages (u : String) (db : DB) :
    (insertOrIgnoreUser u db).messages = db.messages := by
  unfold insertOrIgnoreUser
  split <;> rfl

/-- After the idempotent insert, the user is present. -/
theorem mem_insertOrIgnoreUser (u : String) (db : DB) :
    u ∈ (insertOrIgnoreUser u db).users := by
  unfold insertOrIgnoreUser
  by_cases h : u ∈ db.users
  · rw [if_pos h]
    exact h
  · rw [if_neg h]
    simp

/-- If the user is already present, the idempotent insert is the identity. -/
theorem insertOrIgnoreUser_of_mem (u : String) (db : DB) (h : u ∈ db.users) :
    insertOrIgnoreUser u db = db := by
  unfold insertOrIgnoreUser
  rw [if_pos h]

/-- Reduction of the ensure block when the (sid, uid) lookup succeeds. -/
theorem ensureUserAndSession_of_found (sid uid : String) (now : Nat) (db : DB)
    (r : SessionRow)
    (hf : findSession sid uid (insertOrIgnoreUser uid db) = some r) :
    ensureUserAndSession sid uid now db = .ok (insertOrIgnoreUser uid db) := by
  unfold ensureUserAndSession
  rw [hf]

/-- Reduction of the ensure block when the (sid, uid) lookup fails. -/
theorem ensureUserAndSession_of_notfound (sid uid : String) (now : Nat) (db : DB)
    (hf : findSession sid uid (insertOrIgnoreUser uid db) = none) :
    ensureUserAndSession sid uid now db =
      insertSession (SessionRow.mk sid uid (mkTitle now) now)
        (insertOrIgnoreUser uid db) := by
  unfold ensureUserAndSession
  rw [hf]

/-- A session INSERT whose primary key is already taken raises. -/
theorem insertSession_error (row : SessionRow) (db : DB)
    (h : ∃ s ∈ db.sessions, s.session_id = row.session_id) :
    insertSession row db = .error .integrityError := by
  have hc : (db.sessions.any fun s => s.session_id == row.session_id) = true := by
    obtain ⟨s, hs, he⟩ := h
    exact List.any_eq_true.mpr ⟨s, hs, by simp [he]⟩
  unfold insertSession
  rw [if_pos hc]

/-- A session INSERT with a free primary key appends the row. -/
theorem insertSession_ok (row : SessionRow) (db : DB)
    (h : ∀ s ∈ db.sessions, s.session_id ≠ row.session_id) :
    insertSession row db = .ok { db with sessions := db.sessions ++ [row] } := by
  have hcn : ¬(db.sessions.any fun s => s.session_id == row.session_id) = true := by
    intro hany
    obtain ⟨s, hs, hp⟩ := List.any_eq_true.mp hany
    exact h s hs (by simpa using hp)
  unfold insertSession
  rw [if_neg hcn]

/-- A successful ensure leaves a (sid, uid) session row present, records the
user, and never touches the messages table. -/
theorem ensureUserAndSession_ok (sid uid : String) (now : Nat) (db db1 : DB)
    (h : ensureUserAndSession sid uid now db = .ok db1) :
    (∃ r ∈ db1.sessions, r.session_id = sid ∧ r.user_email = uid)
    ∧ uid ∈ db1.users ∧ db1.messages = db.messages := by
  cases hf : findSession sid uid (insertOrIgnoreUser uid db) with
  | some r =>
    rw [ensureUserAndSession_of_found sid uid now db r hf] at h
    injection h with h2
    subst h2
    refine ⟨⟨r, List.mem_of_find?_eq_some hf, ?_⟩,
      mem_insertOrIgnoreUser uid db, insertOrIgnoreUser_messages uid db⟩
    have hp := List.find?_some hf
    simp only [Bool.and_eq_true, beq_iff_eq] at hp
    exact hp
  | none =>
    rw [ensureUserAndSession_of_notfound sid uid now db hf] at h
    unfold insertSession at h
    split at h
    · simp at h
    · injection h with h2
      subst h2
      refine ⟨⟨SessionRow.mk sid uid (mkTitle now) now, by simp, rfl, rfl⟩,
        mem_insertOrIgnoreUser uid db, insertOrIgnoreUser_messages uid db⟩

/-- When every session row carrying `sid` belongs to `uid`, the ensure block
succeeds and leaves the messages table untouched. -/
theorem ensureUserAndSession_no_conflict (sid uid : String) (now : Nat) (db : DB)
    (hok : ∀ r ∈ db.sessions, r.session_id = sid → r.user_email = uid) :
    ∃ db1, ensureUserAndSession sid uid now db = .ok db1
      ∧ db1.messages = db.messages := by
  cases hf : findSession sid uid (insertOrIgnoreUser uid db) with
  | some r =>
    exact ⟨_, ensureUserAndSession_of_found sid uid now db r hf,
      insertOrIgnoreUser_messages uid db⟩
  | none =>
    rw [ensureUserAndSession_of_notfound sid uid now db hf]
    rw [insertSession_ok]
    · exact ⟨_, rfl, insertOrIgnoreUser_messages uid db⟩
    · intro s hs hssid
      rw [insertOrIgnoreUser_sessions] at hs
      have hus := hok s hs hssid
      unfold findSession at hf
      rw [List.find?_eq_none] at hf
      have hfs := hf s (by rw [insertOrIgnoreUser_sessions]; exact hs)
      simp only [Bool.and_eq_true, beq_iff_eq, not_and] at hfs
      exact hfs hssid hus

/-! ## C4 -/

/-- C4: when a session row with id `sid` exists and every row carrying `sid`
is owned by `uidA`, a `get_or_create_session` call for `sid` by a different
user `uidB` hits the sessions primary-key constraint and fails with the
IntegrityError: it never returns the other user's session record or its
message history. -/
theorem session_identity_isolation (db : DB) (sid uidA uidB fresh : String)
    (now : Nat) (row : SessionRow)
    (hrow : row ∈ db.sessions) (hsid : row.session_id = sid)
    (hne : uidB ≠ uidA) (hnee : sid ≠ "")
    (honly : ∀ r ∈ db.sessions, r.session_id = sid → r.user_email = uidA) :
    get_or_create_session (some sid) uidB fresh now db =
      .error .integrityError := by
  have hres : resolveSessionId (some sid) fresh = sid := by
    simp [resolveSessionId, hnee]
  have hfind : findSession sid uidB (insertOrIgnoreUser uidB db) = none := by
    unfold findSession
    rw [List.find?_eq_none]
    intro x hx
    rw [insertOrIgnoreUser_sessions] at hx
    simp only [Bool.and_eq_true, beq_iff_eq, not_and]
    intro h1 h2
    have hA := honly x hx h1
    rw [h2] at hA
    exact hne hA
  have hens : ensureUserAndSession sid uidB now db = .error .integrityError := by
    rw [ensureUserAndSession_of_notfound sid uidB now db hfind]
    rw [insertSession_error]
    rw [insertOrIgnoreUser_sessions]
    exact ⟨row, hrow, hsid⟩
  simp only [get_or_create_session, hres, hens]

/-- C4 witness: bob asking for alice's session id gets the integrity error,
not her session. -/
theorem session_identity_isolation_witness :
    SessionRow.mk "s1" "alice" "t" 0 ∈ dbC4.sessions
    ∧ ("bob" : String) ≠ "alice"
    ∧ get_or_create_session (some "s1") "bob" "f" 7 dbC4 =
        .error .integrityError :=
  ⟨by decide, by decide,
   session_identity_isolation dbC4 "s1" "alice" "bob" "f" 7
     (SessionRow.mk "s1" "alice" "t" 0) (by decide) rfl
     (by decide) (by decide) (by decide)⟩

/-! ## C5 -/

/-- C5: once `get_or_create_session` has succeeded for an explicit (sid, uid),
calling it again with the same pair returns the same session identity and
leaves the database — in particular the sessions table — exactly as it was
after the first call. -/
theorem get_or_create_session_idempotent (db db1 : DB) (sid uid f1 f2 : String)
    (t1 t2 : Nat) (r1 : SessionResponse) (hsid : sid ≠ "")
    (h1 : get_or_create_session (some sid) uid f1 t1 db = .ok (r1, db1)) :
    ∃ r2 : SessionResponse,
      get_or_create_session (some sid) uid f2 t2 db1 = .ok (r2, db1)
      ∧ r2.session_id = r1.session_id := by
  have hres1 : resolveSessionId (some sid) f1 = sid := by
    simp [resolveSessionId, hsid]
  have hres2 : resolveSessionId (some sid) f2 = sid := by
    simp [resolveSessionId, hsid]
  unfold get_or_create_session at h1
  rw [hres1] at h1
  cases hens : ensureUserAndSession sid uid t1 db with
  | error e =>
    rw [hens] at h1
    simp at h1
  | ok dbx =>
    simp only [hens] at h1
    cases hst : selectStartTime sid dbx with
    | none =>
      simp only [hst] at h1
      exact absurd h1 (by simp)
    | some st =>
      simp only [hst, Except.ok.injEq, Prod.mk.injEq] at h1
      obtain ⟨hresp, hdb⟩ := h1
      subst hdb
      obtain ⟨⟨r, hrmem, hrsid, hruid⟩, huid, -⟩ :=
        ensureUserAndSession_ok sid uid t1 db dbx hens
      have hins : insertOrIgnoreUser uid dbx = dbx :=
        insertOrIgnoreUser_of_mem uid dbx huid
      have hfind2 : (findSession sid uid (insertOrIgnoreUser uid dbx)).isSome := by
        rw [hins]
        unfold findSession
        rw [List.find?_isSome]
        exact ⟨r, hrmem, by simp [hrsid, hruid]⟩
      obtain ⟨rf, hrf⟩ := Option.isSome_iff_exists.mp hfind2
      have hens2 : ensureUserAndSession sid uid t2 dbx = .ok dbx := by
        rw [ensureUserAndSession_of_found sid uid t2 dbx rf hrf, hins]
      have hfs : (dbx.sessions.find? fun s => s.session_id == sid).isSome := by
        rw [List.find?_isSome]
        exact ⟨r, hrmem, by simp [hrsid]⟩
      obtain ⟨row2, hrow2⟩ := Option.isSome_iff_exists.mp hfs
      have hst2 : selectStartTime sid dbx = some row2.start_time := by
        unfold selectStartTime
        rw [hrow2]
        rfl
      refine ⟨SessionResponse.mk sid
          ((listMessages sid dbx).map fun m => (m.human, m.ai, m.timestamp))
          (countMessages sid dbx) row2.start_time, ?_, ?_⟩
      · simp only [get_or_create_session, hres2, hens2, hst2]
      · rw [← hresp]

/-- C5 witness: a concrete first call followed by a second call that returns
the same identity and the unchanged database. -/
theorem get_or_create_session_idempotent_witness :
    ("s1" : String) ≠ ""
    ∧ get_or_create_session (some "s1") "u" "f1" 1 dbEmpty = .ok (r1C5, db1C5)
    ∧ ∃ r2 : SessionResponse,
        get_or_create_session (some "s1") "u" "f2" 2 db1C5 = .ok (r2, db1C5)
        ∧ r2.session_id = r1C5.session_id :=
  ⟨by decide, by decide,
   get_or_create_session_idempotent dbEmpty db1C5 "s1" "u" "f1" "f2" 1 2 r1C5
     (by decide) (by decide)⟩

/-! ## C7 -/

/-- C7: when the completion provider fails, the turn aborts with the provider
error and the messages table after the turn equals the messages table from
before the provider call (which the session-ensuring block had left equal to
the initial one). -/
theorem provider_failure_no_append (message sid model persona uid : String)
    (w : Int) (tS tM : Nat) (e : String)
    (provider : String → List ChatEntry → Except String String) (db : DB)
    (hprov : ∀ m p, provider m p = .error e)
    (hok : ∀ r ∈ db.sessions, r.session_id = sid → r.user_email = uid) :
    (send_message message sid model persona w uid tS tM provider db).1 =
      .error (.provider e)
    ∧ ((send_message message sid model persona w uid tS tM provider db).2).messages
        = db.messages := by
  obtain ⟨db1, hens, hmsg⟩ := ensureUserAndSession_no_conflict sid uid tS db hok
  unfold send_message
  simp only [hens, hprov]
  exact ⟨trivial, hmsg⟩

/-- C7 witness: a concrete turn against the failing provider returns its
error and appends nothing. -/
theorem provider_failure_no_append_witness :
    (send_message "hi" "s1" "m" "Default" 5 "u" 1 2 failProvider dbEmpty).1 =
      .error (.provider "boom")
    ∧ ((send_message "hi" "s1" "m" "Default" 5 "u" 1 2 failProvider dbEmpty).2).messages
        = dbEmpty.messages :=
  provider_failure_no_append "hi" "s1" "m" "Default" "u" 5 1 2 "boom"
    failProvider dbEmpty (fun _ _ => rfl) (by decide)

/-! ## C9 -/

/-- C9: every successful session-endpoint response is internally consistent:
the reported message count equals the length of the returned chat history,
both being computed from the same messages-table snapshot. -/
theorem message_count_matches_history (opt : Option String) (uid fresh : String)
    (now : Nat) (db : DB) (resp : SessionResponse) (db1 : DB)
    (h : get_or_create_session opt uid fresh now db = .ok (resp, db1)) :
    resp.message_count = resp.chat_history.length := by
  unfold get_or_create_session at h
  cases hens : ensureUserAndSession (resolveSessionId opt fresh) uid now db with
  | error e =>
    rw [hens] at h
    simp at h
  | ok dbx =>
    simp only [hens] at h
    cases hst : selectStartTime (resolveSessionId opt fresh) dbx with
    | none =>
      simp only [hst] at h
      exact absurd h (by simp)
    | some st =>
      simp only [hst, Except.ok.injEq, Prod.mk.injEq] at h
      obtain ⟨hresp, -⟩ := h
      rw [← hresp]
      show countMessages (resolveSessionId opt fresh) dbx =
        ((listMessages (resolveSessionId opt fresh) dbx).map
          fun m => (m.human, m.ai, m.timestamp)).length
      rw [List.length_map]
      unfold listMessages countMessages
      exact (List.length_insertionSort byTimestamp _).symm

/-- C9 witness: a concrete session call whose count and history length agree. -/
theorem message_count_matches_history_witness :
    get_or_create_session none "v" "g" 3 dbEmpty = .ok (respC9, dbC9)
    ∧ respC9.message_count = respC9.chat_history.length :=
  ⟨by decide,
   message_count_matches_history none "v" "g" 3 dbEmpty respC9 dbC9 (by decide)⟩

/-! ## C8 -/

/-- On a database containing no session row and no message row for `sid`, the
session endpoint creates a fresh session: the response carries `sid`, an
empty history, a zero count, and `now` as start time. -/
theorem get_or_create_session_fresh (db : DB) (sid uid fresh : String)
    (now : Nat) (hsid : sid ≠ "")
    (hs : ∀ s ∈ db.sessions, s.session_id ≠ sid)
    (hm : ∀ m ∈ db.messages, m.session_id ≠ sid) :
    ∃ db2, get_or_create_session (some sid) uid fresh now db
      = .ok (SessionResponse.mk sid [] 0 now, db2) := by
  have hres : resolveSessionId (some sid) fresh = sid := by
    simp [resolveSessionId, hsid]
  have hfind : findSession sid uid (insertOrIgnoreUser uid db) = none := by
    unfold findSession
    rw [List.find?_eq_none]
    intro x hx
    rw [insertOrIgnoreUser_sessions] at hx
    simp only [Bool.and_eq_true, beq_iff_eq, not_and]
    intro h1 _
    exact absurd h1 (hs x hx)
  have hnotin : ∀ s ∈ (insertOrIgnoreUser uid db).sessions,
      s.session_id ≠ (SessionRow.mk sid uid (mkTitle now) now).session_id := by
    intro s hss
    rw [insertOrIgnoreUser_sessions] at hss
    exact hs s hss
  have hens : ensureUserAndSession sid uid now db =
      .ok { insertOrIgnoreUser uid db with
            sessions := (insertOrIgnoreUser uid db).sessions
              ++ [SessionRow.mk sid uid (mkTitle now) now] } := by
    rw [ensureUserAndSession_of_notfound sid uid now db hfind]
    exact insertSession_ok _ _ hnotin
  have hstart : selectStartTime sid
      { insertOrIgnoreUser uid db with
        sessions := (insertOrIgnoreUser uid db).sessions
          ++ [SessionRow.mk sid uid (mkTitle now) now] } = some now := by
    unfold selectStartTime
    show (((insertOrIgnoreUser uid db).sessions
        ++ [SessionRow.mk sid uid (mkTitle now) now]).find?
          (fun s => s.session_id == sid)).map (fun s => s.start_time) = some now
    rw [List.find?_append]
    have h1 : (insertOrIgnoreUser uid db).sessions.find?
        (fun s => s.session_id == sid) = none := by
      rw [List.find?_eq_none]
      intro x hx
      rw [insertOrIgnoreUser_sessions] at hx
      simpa using hs x hx
    rw [h1]
    simp [List.find?]
  have hfilter : ({ insertOrIgnoreUser uid db with
      sessions := (insertOrIgnoreUser uid db).sessions
        ++ [SessionRow.mk sid uid (mkTitle now) now] } : DB).messages.filter
        (fun m => m.session_id == sid) = [] := by
    show (insertOrIgnoreUser uid db).messages.filter
      (fun m => m.session_id == sid) = []
    rw [insertOrIgnoreUser_messages, List.filter_eq_nil_iff]
    intro m hmm
    simpa using hm m hmm
  refine ⟨{ insertOrIgnoreUser uid db with
      sessions := (insertOrIgnoreUser uid db).sessions
        ++ [SessionRow.mk sid uid (mkTitle now) now] }, ?_⟩
  simp only [get_or_create_session, hres, hens, hstart]
  simp only [listMessages, countMessages, hfilter]
  simp

/-- C8: clearing a session deletes exactly that session's row and messages —
user rows, other sessions' rows and other sessions' message listings are
unchanged — and a subsequent `get_or_create_session` with the same id yields
a fresh empty session (empty history, zero count, new start time), not the
old history. -/
theorem clear_then_recreate (db : DB) (sid uid fresh : String) (now : Nat)
    (hsid : sid ≠ "") :
    (clear_session sid db).users = db.users
    ∧ (∀ m ∈ (clear_session sid db).messages, m.session_id ≠ sid)
    ∧ (∀ s ∈ (clear_session sid db).sessions, s.session_id ≠ sid)
    ∧ (∀ sid2, sid2 ≠ sid →
        listMessages sid2 (clear_session sid db) = listMessages sid2 db)
    ∧ (∀ sid2, sid2 ≠ sid →
        (clear_session sid db).sessions.filter (fun s => s.session_id == sid2)
          = db.sessions.filter fun s => s.session_id == sid2)
    ∧ ∃ resp db2,
        get_or_create_session (some sid) uid fresh now (clear_session sid db)
          = .ok (resp, db2)
        ∧ resp.session_id = sid ∧ resp.chat_history = []
        ∧ resp.message_count = 0 ∧ resp.start_time = now := by
  have hm : ∀ m ∈ (clear_session sid db).messages, m.session_id ≠ sid := by
    intro m hmm
    simp only [clear_session, List.mem_filter] at hmm
    simpa using hmm.2
  have hs : ∀ s ∈ (clear_session sid db).sessions, s.session_id ≠ sid := by
    intro s hss
    simp only [clear_session, List.mem_filter] at hss
    simpa using hss.2
  have hlm : ∀ sid2, sid2 ≠ sid →
      listMessages sid2 (clear_session sid db) = listMessages sid2 db := by
    intro sid2 hne
    unfold listMessages
    congr 1
    show (clear_session sid db).messages.filter (fun m => m.session_id == sid2)
      = db.messages.filter fun m => m.session_id == sid2
    simp only [clear_session]
    rw [List.filter_filter]
    apply List.filter_congr
    intro m hmm
    cases hms : m.session_id == sid2 with
    | false => simp [hms]
    | true =>
      have he : m.session_id = sid2 := by simpa using hms
      have hfalse : (m.session_id == sid) = false := by
        rw [he]
        exact beq_eq_false_iff_ne.mpr hne
      simp [hms, hfalse]
  have hsf : ∀ sid2, sid2 ≠ sid →
      (clear_session sid db).sessions.filter (fun s => s.session_id == sid2)
        = db.sessions.filter fun s => s.session_id == sid2 := by
    intro sid2 hne
    simp only [clear_session]
    rw [List.filter_filter]
    apply List.filter_congr
    intro s hss
    cases hsb : s.session_id == sid2 with
    | false => simp [hsb]
    | true =>
      have he : s.session_id = sid2 := by simpa using hsb
      have hfalse : (s.session_id == sid) = false := by
        rw [he]
        exact beq_eq_false_iff_ne.mpr hne
      simp [hsb, hfalse]
  obtain ⟨db2, hgo⟩ :=
    get_or_create_session_fresh (clear_session sid db) sid uid fresh now hsid hs hm
  exact ⟨rfl, hm, hs, hlm, hsf, SessionResponse.mk sid [] 0 now, db2, hgo,
    rfl, rfl, rfl, rfl⟩

/-- C8 witness: clearing s1 and re-creating it on a concrete two-session
database. -/
theorem clear_then_recreate_witness :
    ("s1" : String) ≠ ""
    ∧ ((clear_session "s1" dbC8).users = dbC8.users
    ∧ (∀ m ∈ (clear_session "s1" dbC8).messages, m.session_id ≠ "s1")
    ∧ (∀ s ∈ (clear_session "s1" dbC8).sessions, s.session_id ≠ "s1")
    ∧ (∀ sid2, sid2 ≠ "s1" →
        listMessages sid2 (clear_session "s1" dbC8) = listMessages sid2 dbC8)
    ∧ (∀ sid2, sid2 ≠ "s1" →
        (clear_session "s1" dbC8).sessions.filter (fun s => s.session_id == sid2)
          = dbC8.sessions.filter fun s => s.session_id == sid2)
    ∧ ∃ resp db2,
        get_or_create_session (some "s1") "u" "f" 9 (clear_session "s1" dbC8)
          = .ok (resp, db2)
        ∧ resp.session_id = "s1" ∧ resp.chat_history = []
        ∧ resp.message_count = 0 ∧ resp.start_time = 9) :=
  ⟨by decide, clear_then_recreate dbC8 "s1" "u" "f" 9 (by decide)⟩
